import Mathlib

/-!
Verification of the resilient trend-analysis pipeline of the scraper repository
(`src/trend-analysis/trend-analysis.service.ts`).

The TypeScript service is shallowly embedded below:
* JavaScript numbers appearing in analysis data are modelled as `Int`
  (scores, comment counts, timestamps) and as `ℚ` where fractional values
  arise (averages, insight fields produced by `Math.round`);
  `Math.round x` for a JS number is `⌊x + 1/2⌋` (round half toward +∞),
  modelled by `jsRound` on `ℚ`.
* The external Gemini call is an opaque effect; each attempt of the retry
  loop is driven by an `AttemptOutcome` describing what the outside world
  did on that attempt (transport error, undecodable text, decodable
  non-array text, or a decoded array of insights).
* Mutable service state (`circuitBreakerOpen`, `circuitBreakerResetTime`)
  is threaded explicitly as a `BreakerState`.
* Side effects relevant to the specification (outbound calls, backoff
  waits, breaker transitions) are recorded in an `Event` trace.
* Fallible code returns `Except`.
-/

/-- One Reddit post, restricted to the fields the analysis service reads
(`title`, `subreddit`, `score`, `num_comments`, `created_utc`, `selftext?`). -/
structure RedditPost where
  title : String
  subreddit : String
  score : Int
  num_comments : Int
  created_utc : Int
  selftext : Option String
deriving DecidableEq

/-- The `TrendAnalysisResult` interface of the service. -/
structure TrendAnalysisResult where
  trend : String
  growthPercentage : ℚ
  timePeriod : String
  marketAnalysis : String
  competitionLevel : String
  entryCost : String
  recommendation : String
  confidence : ℚ
deriving DecidableEq

/-- The `ProblemAnalysis` interface of the service. -/
structure ProblemAnalysis where
  problem : String
  frequency : ℚ
  severity : String
  potentialSolutions : List String
  marketSize : String
  urgency : String
deriving DecidableEq

/-- JavaScript `Math.round`: round half toward positive infinity. -/
def jsRound (q : ℚ) : ℤ := ⌊q + 1 / 2⌋

/-- Decimal digit characters of a natural number, fuel-based exactly like
core `Nat.toDigitsCore` so that it reduces structurally. -/
def natDigitsAux : Nat → Nat → List Char
  | 0, _ => []
  | fuel + 1, n =>
    if n < 10 then [Nat.digitChar n]
    else natDigitsAux fuel (n / 10) ++ [Nat.digitChar (n % 10)]

/-- Decimal digit characters of a natural number. -/
def natDigits (n : Nat) : List Char := natDigitsAux (n + 1) n

/-- Decimal rendering of a natural number (JS number-to-string for naturals). -/
def natToString (n : Nat) : String := ⟨natDigits n⟩

/-- Decimal rendering of an integer (JS number-to-string for integers). -/
def intToString : Int → String
  | .ofNat n => natToString n
  | .negSucc n => "-" ++ natToString (n + 1)

/-- Rendering of a rational for report interpolation; integral values print
as JS integers do, which is the only case the service ever produces. -/
def ratToString (q : ℚ) : String :=
  if q.den = 1 then intToString q.num
  else intToString q.num ++ "/" ++ natToString q.den

/-- `acc[subreddit] = (acc[subreddit] || 0) + 1` on an insertion-ordered
JS object, represented as an association list in key-insertion order. -/
def bumpCount (s : String) : List (String × Nat) → List (String × Nat)
  | [] => [(s, 1)]
  | (k, n) :: rest => if k = s then (k, n + 1) :: rest else (k, n) :: bumpCount s rest

/-- `posts.reduce(...)` building `subredditCounts`: per-subreddit counts in
first-encounter order. -/
def countBySubreddit (posts : List RedditPost) : List (String × Nat) :=
  posts.foldl (fun acc p => bumpCount p.subreddit acc) []

/-- Stable insertion of one entry into a count-descending list: an entry is
placed before the first entry whose count is not larger, which is exactly
the unique stable descending order produced by `sort(([, a], [, b]) => b - a)`. -/
def insertCountDesc (x : String × Nat) : List (String × Nat) → List (String × Nat)
  | [] => [x]
  | y :: ys => if y.2 ≤ x.2 then x :: y :: ys else y :: insertCountDesc x ys

/-- Stable sort by count descending (JS `Array.prototype.sort` is stable). -/
def sortCountDesc : List (String × Nat) → List (String × Nat)
  | [] => []
  | x :: xs => insertCountDesc x (sortCountDesc xs)

/-- Mean of the scores of a window, as an exact rational. -/
def avgScoreOf (posts : List RedditPost) : ℚ :=
  ((posts.map fun p => p.score).sum : ℤ) / (posts.length : ℚ)

/-- Mean of the comment counts of a window, as an exact rational. -/
def avgCommentsOf (posts : List RedditPost) : ℚ :=
  ((posts.map fun p => p.num_comments).sum : ℤ) / (posts.length : ℚ)

/-- `getFallbackTrendAnalysis` of the service: deterministic offline trend
heuristics (top-subreddit insight, then optional high-engagement insight). -/
def getFallbackTrendAnalysis (posts : List RedditPost) : List TrendAnalysisResult :=
  let subredditCounts := countBySubreddit posts
  let topSubreddits := (sortCountDesc subredditCounts).take 3
  let avgScore := avgScoreOf posts
  let avgComments := avgCommentsOf posts
  let baseTrends : List TrendAnalysisResult :=
    match topSubreddits with
    | [] => []
    | top :: _ =>
      [{ trend := "Growing activity in " ++ top.1 ++ " community"
         growthPercentage := (jsRound ((top.2 : ℚ) / (posts.length : ℚ) * 100) : ℚ)
         timePeriod := "30 days"
         marketAnalysis := "High engagement community with " ++ intToString (jsRound avgScore)
           ++ " avg score and " ++ intToString (jsRound avgComments) ++ " avg comments"
         competitionLevel := "Medium"
         entryCost := "Low"
         recommendation := "Consider building tools for " ++ top.1 ++ " community needs"
         confidence := 60 }]
  if 100 < avgScore then
    baseTrends ++
      [{ trend := "High-engagement content trend"
         growthPercentage := (jsRound (avgScore / 100 * 10) : ℚ)
         timePeriod := "30 days"
         marketAnalysis := "Content with high engagement indicates strong community interest"
         competitionLevel := "High"
         entryCost := "Medium"
         recommendation := "Focus on content creation and community management tools"
         confidence := 70 }]
  else baseTrends

/-- Pattern occurrence at the front of a character list (`String.includes`
ingredient). -/
def patAtFront : List Char → List Char → Bool
  | [], _ => true
  | _ :: _, [] => false
  | a :: ps, b :: l => a == b && patAtFront ps l

/-- Pattern occurrence anywhere in a character list; Boolean model of
JavaScript `String.includes`. -/
def hasPatRun (pat : List Char) : List Char → Bool
  | [] => patAtFront pat []
  | b :: rest => patAtFront pat (b :: rest) || hasPatRun pat rest

/-- `toLowerCase()`: lowercase every character. -/
def toLowerStr (s : String) : String := ⟨s.data.map Char.toLower⟩

/-- `text.includes(keyword)` after `toLowerCase()`. -/
def containsKeyword (text keyword : String) : Bool :=
  hasPatRun keyword.data (toLowerStr text).data

/-- The fixed problem keyword list of `getFallbackProblemAnalysis`. -/
def problemKeywords : List String :=
  ["problem", "issue", "difficult", "hard", "struggle",
   "frustrated", "annoying", "broken", "fix", "help"]

/-- A post matches when any keyword occurs in the lowercased title or in the
lowercased selftext (absent selftext matches nothing). -/
def isProblemPost (p : RedditPost) : Bool :=
  problemKeywords.any fun keyword =>
    containsKeyword p.title keyword ||
      (match p.selftext with
       | some t => containsKeyword t keyword
       | none => false)

/-- `getFallbackProblemAnalysis` of the service: keyword-frequency insight,
then optional low-engagement insight. -/
def getFallbackProblemAnalysis (posts : List RedditPost) : List ProblemAnalysis :=
  let problemPosts := posts.filter isProblemPost
  let baseProblems : List ProblemAnalysis :=
    if 0 < problemPosts.length then
      [{ problem := "User-reported issues and difficulties"
         frequency := (problemPosts.length : ℚ)
         severity := if 10 < problemPosts.length then "High" else "Medium"
         potentialSolutions := ["User support tools", "Automated troubleshooting", "Community forums"]
         marketSize := "Large"
         urgency := "High" }]
    else []
  let lowEngagementPosts := posts.filter fun p => decide (p.score < 5) && decide (p.num_comments < 3)
  if (posts.length : ℚ) * (3 / 10) < (lowEngagementPosts.length : ℚ) then
    baseProblems ++
      [{ problem := "Low engagement content"
         frequency := (lowEngagementPosts.length : ℚ)
         severity := "Medium"
         potentialSolutions := ["Content optimization tools", "Engagement analytics", "A/B testing platforms"]
         marketSize := "Medium"
         urgency := "Medium" }]
  else baseProblems

/-- The mutable circuit-breaker fields of the service
(`circuitBreakerOpen`, `circuitBreakerResetTime`). -/
structure BreakerState where
  circuitBreakerOpen : Bool
  circuitBreakerResetTime : Nat
deriving DecidableEq

/-- `this.circuitBreakerTimeout = 5 * 60 * 1000` (five minutes, in ms). -/
def circuitBreakerTimeout : Nat := 5 * 60 * 1000

/-- `maxRetries = 3` of the retry loop. -/
def maxRetries : Nat := 3

/-- `retryDelay = 2000` (base backoff delay in ms). -/
def retryDelay : Nat := 2000

/-- What the outside world does on one attempt of the retry loop:
the call throws, or returns text that is undecodable, or text that decodes
to a non-array, or text that decodes to an array of insights. -/
inductive AttemptOutcome (α : Type) where
  | transportError
  | malformed
  | decodedNonArray
  | decodedArr (items : List α)
deriving DecidableEq

/-- Whether the attempt throws inside the `try` block (both a transport
error and a `JSON.parse` failure on undecodable text land in the `catch`). -/
def AttemptOutcome.failed {α : Type} : AttemptOutcome α → Bool
  | .transportError => true
  | .malformed => true
  | .decodedNonArray => false
  | .decodedArr _ => false

/-- Observable effects of one analysis invocation: an outbound Gemini call,
a backoff wait (`setTimeout`), and the two breaker transitions. -/
inductive Event where
  | externalCall
  | wait (ms : Nat)
  | setBreakerClosed
  | setBreakerOpen (resetTime : Nat)
deriving DecidableEq

/-- Result of one analysis invocation: returned insight list, final breaker
state, and the trace of observable effects. -/
structure RunResult (α : Type) where
  value : List α
  state : BreakerState
  events : List Event
deriving DecidableEq

/-- The `for (let attempt = 1; attempt <= maxRetries; attempt++)` loop body
shared verbatim by `analyzeWithGemini` and `analyzeProblemsWithGemini`:
a successful decode closes the breaker and returns (a non-array decodes to
`[]`); a throwing attempt is retried after `retryDelay * attempt` ms, and
the final attempt's failure opens the breaker (reset time
`Date.now() + circuitBreakerTimeout`, the exhaustion-time clock being
`exhaustTime`) and returns the fallback result.  Falling out of the loop
(more attempts configured than outcomes supplied) is the unreachable
`return []` after the loop. -/
def retryLoop {α : Type} (fallback : List α) (exhaustTime : Nat) :
    Nat → List (AttemptOutcome α) → BreakerState → RunResult α
  | _, [], st => ⟨[], st, []⟩
  | attempt, o :: rest, st =>
    match o with
    | .decodedArr items =>
      ⟨items, { st with circuitBreakerOpen := false }, [Event.externalCall, Event.setBreakerClosed]⟩
    | .decodedNonArray =>
      ⟨[], { st with circuitBreakerOpen := false }, [Event.externalCall, Event.setBreakerClosed]⟩
    | _ =>
      if attempt = maxRetries then
        ⟨fallback, ⟨true, exhaustTime + circuitBreakerTimeout⟩,
          [.externalCall, .setBreakerOpen (exhaustTime + circuitBreakerTimeout)]⟩
      else
        let r := retryLoop fallback exhaustTime (attempt + 1) rest st
        ⟨r.value, r.state, .externalCall :: .wait (retryDelay * attempt) :: r.events⟩

/-- Common shape of `analyzeWithGemini` / `analyzeProblemsWithGemini`:
if the breaker is open and `Date.now()` (`checkTime`) is before the reset
time, return the fallback without any call; otherwise run the retry loop. -/
def runGeminiAnalysis {α : Type} (fallback : List α)
    (outcomes : List (AttemptOutcome α)) (checkTime exhaustTime : Nat)
    (st : BreakerState) : RunResult α :=
  if st.circuitBreakerOpen = true ∧ checkTime < st.circuitBreakerResetTime then
    ⟨fallback, st, []⟩
  else
    retryLoop fallback exhaustTime 1 outcomes st

/-- `analyzeWithGemini(posts)`. -/
def analyzeWithGemini (posts : List RedditPost)
    (outcomes : List (AttemptOutcome TrendAnalysisResult))
    (checkTime exhaustTime : Nat) (st : BreakerState) : RunResult TrendAnalysisResult :=
  runGeminiAnalysis (getFallbackTrendAnalysis posts) outcomes checkTime exhaustTime st

/-- `analyzeProblemsWithGemini(posts)`. -/
def analyzeProblemsWithGemini (posts : List RedditPost)
    (outcomes : List (AttemptOutcome ProblemAnalysis))
    (checkTime exhaustTime : Nat) (st : BreakerState) : RunResult ProblemAnalysis :=
  runGeminiAnalysis (getFallbackProblemAnalysis posts) outcomes checkTime exhaustTime st

/-- `getRecentPosts`: the repository fetch (an external collaborator whose
success or failure is an input here) filtered by `created_utc >= cutoff`. -/
def getRecentPosts (fetched : Except String (List RedditPost))
    (cutoffTimestamp : Int) : Except String (List RedditPost) :=
  match fetched with
  | .error e => .error e
  | .ok posts => .ok (posts.filter fun p => decide (cutoffTimestamp ≤ p.created_utc))

/-- `analyzeTrends(days)`: empty windows short-circuit to `[]`; repository
errors are logged and rethrown unchanged. -/
def analyzeTrends (fetched : Except String (List RedditPost)) (cutoffTimestamp : Int)
    (outcomes : List (AttemptOutcome TrendAnalysisResult))
    (checkTime exhaustTime : Nat) (st : BreakerState) :
    Except String (RunResult TrendAnalysisResult) :=
  match getRecentPosts fetched cutoffTimestamp with
  | .error e => .error e
  | .ok posts =>
    if posts.length = 0 then .ok ⟨[], st, []⟩
    else .ok (analyzeWithGemini posts outcomes checkTime exhaustTime st)

/-- `analyzeProblems(days)`: same structure as `analyzeTrends`. -/
def analyzeProblems (fetched : Except String (List RedditPost)) (cutoffTimestamp : Int)
    (outcomes : List (AttemptOutcome ProblemAnalysis))
    (checkTime exhaustTime : Nat) (st : BreakerState) :
    Except String (RunResult ProblemAnalysis) :=
  match getRecentPosts fetched cutoffTimestamp with
  | .error e => .error e
  | .ok posts =>
    if posts.length = 0 then .ok ⟨[], st, []⟩
    else .ok (analyzeProblemsWithGemini posts outcomes checkTime exhaustTime st)

/-- One numbered trend entry of the report template. -/
def trendLine (index : Nat) (t : TrendAnalysisResult) : String :=
  natToString (index + 1) ++ ". " ++ t.trend ++ " (+" ++ ratToString t.growthPercentage
    ++ "% over " ++ t.timePeriod ++ ")\n"
    ++ "   Market: " ++ t.marketAnalysis ++ "\n"
    ++ "   Competition: " ++ t.competitionLevel ++ " | Entry Cost: " ++ t.entryCost ++ "\n"
    ++ "   Recommendation: " ++ t.recommendation ++ "\n"
    ++ "   Confidence: " ++ ratToString t.confidence ++ "%\n\n"

/-- One numbered problem entry of the report template. -/
def problemLine (index : Nat) (p : ProblemAnalysis) : String :=
  natToString (index + 1) ++ ". " ++ p.problem ++ "\n"
    ++ "   Frequency: " ++ ratToString p.frequency ++ " mentions | Severity: " ++ p.severity ++ "\n"
    ++ "   Market Size: " ++ p.marketSize ++ " | Urgency: " ++ p.urgency ++ "\n"
    ++ "   Potential Solutions: " ++ ", ".intercalate p.potentialSolutions ++ "\n\n"

/-- Report header naming the window. -/
def reportHeader (days : Nat) : String :=
  "\n=== TREND ANALYSIS REPORT (" ++ natToString days ++ " days) ===\n\n"

/-- The trends block (emitted only for a non-empty trend collection). -/
def trendsBlock (trends : List TrendAnalysisResult) : String :=
  "📈 EMERGING TRENDS:\n" ++ String.join (trends.enum.map fun p => trendLine p.1 p.2)

/-- The problems block (emitted only for a non-empty problem collection). -/
def problemsBlock (problems : List ProblemAnalysis) : String :=
  "🔍 IDENTIFIED PROBLEMS:\n" ++ String.join (problems.enum.map fun p => problemLine p.1 p.2)

/-- The sentence emitted when both collections are empty. -/
def nothingFoundSentence : String :=
  "No significant trends or problems identified in the current data.\n"

/-- Report footer. -/
def reportFooter : String := "\n=== END OF REPORT ===\n"

/-- The report-synthesis part of `generateReport(days)`: the exact sequence
of conditional `report +=` template appends of the source. -/
def generateReportText (days : Nat) (trends : List TrendAnalysisResult)
    (problems : List ProblemAnalysis) : String :=
  let report := reportHeader days
  let report := if 0 < trends.length then report ++ trendsBlock trends else report
  let report := if 0 < problems.length then report ++ problemsBlock problems else report
  let report :=
    if trends.length = 0 ∧ problems.length = 0 then report ++ nothingFoundSentence else report
  report ++ reportFooter

/-- `generateReport(days)`: run both analyses (linearized: the trend path
first, threading the shared breaker state), synthesize the report; an error
from either analysis is rethrown unchanged. -/
def generateReport (days : Nat) (fetchedT fetchedP : Except String (List RedditPost))
    (cutoffTimestamp : Int)
    (outcomesT : List (AttemptOutcome TrendAnalysisResult))
    (outcomesP : List (AttemptOutcome ProblemAnalysis))
    (checkTimeT exhaustTimeT checkTimeP exhaustTimeP : Nat) (st : BreakerState) :
    Except String (String × BreakerState × List Event) :=
  match analyzeTrends fetchedT cutoffTimestamp outcomesT checkTimeT exhaustTimeT st with
  | .error e => .error e
  | .ok resultT =>
    match analyzeProblems fetchedP cutoffTimestamp outcomesP checkTimeP exhaustTimeP resultT.state with
    | .error e => .error e
    | .ok resultP =>
      .ok (generateReportText days resultT.value resultP.value,
           resultP.state, resultT.events ++ resultP.events)

/-- The constructor guard: `if (!apiKey) throw new Error('GEMINI_KEY is not
configured')` (a missing or empty key is falsy). -/
def serviceInit (geminiKey : Option String) : Except String Unit :=
  match geminiKey with
  | none => .error "GEMINI_KEY is not configured"
  | some k => if k = "" then .error "GEMINI_KEY is not configured" else .ok ()

/-- Propositional contiguous containment of `pat` in `l`. -/
def containsRun (pat l : List Char) : Prop := ∃ s t, s ++ pat ++ t = l

/-- `sub` occurs as a contiguous substring of `s`. -/
def strContains (s sub : String) : Prop := containsRun sub.data s.data

/-- `patAtFront` decides "pat is an initial run". -/
theorem patAtFront_iff (pat : List Char) :
    ∀ l : List Char, patAtFront pat l = true ↔ ∃ t, pat ++ t = l := by
  induction pat with
  | nil =>
    intro l
    simp [patAtFront]
  | cons a ps ih =>
    intro l
    cases l with
    | nil => simp [patAtFront]
    | cons b rest =>
      simp only [patAtFront, Bool.and_eq_true, beq_iff_eq, ih]
      constructor
      · rintro ⟨rfl, t, rfl⟩
        exact ⟨t, rfl⟩
      · rintro ⟨t, ht⟩
        injection ht with h1 h2
        exact ⟨h1, t, h2⟩

/-- `hasPatRun` decides contiguous containment. -/
theorem hasPatRun_iff (pat : List Char) :
    ∀ l : List Char, hasPatRun pat l = true ↔ containsRun pat l := by
  intro l
  induction l with
  | nil =>
    simp only [hasPatRun, patAtFront_iff, containsRun]
    constructor
    · rintro ⟨t, ht⟩
      exact ⟨[], t, ht⟩
    · rintro ⟨s, t, hst⟩
      simp only [List.append_eq_nil] at hst
      exact ⟨[], by simp [hst.1.2]⟩
  | cons b rest ih =>
    simp only [hasPatRun, Bool.or_eq_true, patAtFront_iff, ih, containsRun]
    constructor
    · rintro (⟨t, ht⟩ | ⟨s, t, hst⟩)
      · exact ⟨[], t, ht⟩
      · exact ⟨b :: s, t, by simp [hst]⟩
    · rintro ⟨s, t, hst⟩
      cases s with
      | nil => exact Or.inl ⟨t, hst⟩
      | cons c s2 =>
        injection hst with h1 h2
        exact Or.inr ⟨s2, t, h2⟩

/-- Splitting an occurrence of a two-character run across an append: it lies
in the left part, in the right part, or straddles the boundary. -/
theorem pairRun_append {a b : Char} :
    ∀ l1 l2 : List Char, containsRun [a, b] (l1 ++ l2) →
      containsRun [a, b] l1 ∨ containsRun [a, b] l2 ∨ (a ∈ l1 ∧ l2.head? = some b) := by
  intro l1
  induction l1 with
  | nil =>
    intro l2 h
    exact Or.inr (Or.inl (by simpa using h))
  | cons x xs ih =>
    intro l2 h
    obtain ⟨s, t, hst⟩ := h
    cases s with
    | nil =>
      simp only [List.nil_append, List.cons_append] at hst
      injection hst with h1 h2
      cases xs with
      | nil =>
        subst h1
        refine Or.inr (Or.inr ⟨List.mem_singleton.mpr rfl, ?_⟩)
        simp only [List.nil_append] at h2
        rw [← h2]
        rfl
      | cons y ys =>
        simp only [List.cons_append] at h2
        injection h2 with h2a h2b
        subst h1
        subst h2a
        exact Or.inl ⟨[], ys, by simp⟩
    | cons c s2 =>
      simp only [List.cons_append] at hst
      injection hst with h1 h2
      rcases ih l2 ⟨s2, t, h2⟩ with hc | hc | hc
      · obtain ⟨s3, t3, h3⟩ := hc
        exact Or.inl ⟨x :: s3, t3, by simp [h3]⟩
      · exact Or.inr (Or.inl hc)
      · exact Or.inr (Or.inr ⟨List.mem_cons_of_mem x hc.1, hc.2⟩)

/-- Every character produced by `natDigitsAux` is a decimal digit. -/
theorem natDigitsAux_digits :
    ∀ fuel n : Nat, ∀ c ∈ natDigitsAux fuel n, c ∈ ("0123456789").data := by
  intro fuel
  induction fuel with
  | zero => intro n c hc; simp [natDigitsAux] at hc
  | succ f ih =>
    intro n c hc
    by_cases h : n < 10
    · simp only [natDigitsAux, if_pos h, List.mem_singleton] at hc
      subst hc
      interval_cases n <;> decide
    · simp only [natDigitsAux, if_neg h, List.mem_append, List.mem_singleton] at hc
      rcases hc with hc | hc
      · exact ih (n / 10) c hc
      · have h10 : n % 10 < 10 := Nat.mod_lt _ (by norm_num)
        subst hc
        interval_cases hh : n % 10 <;> decide

/-- Every character of `natDigits n` is a decimal digit. -/
theorem natDigits_digits (n : Nat) : ∀ c ∈ natDigits n, c ∈ ("0123456789").data :=
  natDigitsAux_digits (n + 1) n

/-- A decimal rendering never contains a full stop. -/
theorem dot_not_mem_natDigits (n : Nat) : '.' ∉ natDigits n := by
  intro h
  have := natDigits_digits n '.' h
  simp at this

/-- `natDigits` is never empty. -/
theorem natDigits_ne_nil (n : Nat) : natDigits n ≠ [] := by
  unfold natDigits natDigitsAux
  by_cases h : n < 10
  · simp [h]
  · simp [h]

/-- The per-failed-attempt effect trace: starting at attempt number `a`,
`k` consecutive failed non-final attempts each make one call and then wait
`retryDelay * (attempt number)` before retrying. -/
def failEvents : Nat → Nat → List Event
  | _, 0 => []
  | a, k + 1 => .externalCall :: .wait (retryDelay * a) :: failEvents (a + 1) k

/-- Recognizer for backoff-wait events. -/
def isWaitEv : Event → Bool
  | .wait _ => true
  | _ => false

/-- A decoded array on the current attempt: breaker closed, items returned,
no further attempts. -/
theorem retryLoop_decodedArr {α : Type} (fallback : List α) (exhaustTime attempt : Nat)
    (items : List α) (rest : List (AttemptOutcome α)) (st : BreakerState) :
    retryLoop fallback exhaustTime attempt (.decodedArr items :: rest) st =
      ⟨items, { st with circuitBreakerOpen := false }, [Event.externalCall, Event.setBreakerClosed]⟩ := rfl

/-- A decoded non-array on the current attempt: breaker closed, empty list
returned, no further attempts. -/
theorem retryLoop_decodedNonArray {α : Type} (fallback : List α) (exhaustTime attempt : Nat)
    (rest : List (AttemptOutcome α)) (st : BreakerState) :
    retryLoop fallback exhaustTime attempt (.decodedNonArray :: rest) st =
      ⟨[], { st with circuitBreakerOpen := false }, [Event.externalCall, Event.setBreakerClosed]⟩ := rfl

/-- A throwing attempt before the final one: the loop waits
`retryDelay * attempt` and retries. -/
theorem retryLoop_failed_step {α : Type} (fallback : List α) (exhaustTime attempt : Nat)
    (o : AttemptOutcome α) (rest : List (AttemptOutcome α)) (st : BreakerState)
    (ho : o.failed = true) (ha : attempt ≠ maxRetries) :
    retryLoop fallback exhaustTime attempt (o :: rest) st =
      (let r := retryLoop fallback exhaustTime (attempt + 1) rest st
       ⟨r.value, r.state, .externalCall :: .wait (retryDelay * attempt) :: r.events⟩) := by
  cases o with
  | transportError => simp [retryLoop, ha]
  | malformed => simp [retryLoop, ha]
  | decodedNonArray => simp [AttemptOutcome.failed] at ho
  | decodedArr items => simp [AttemptOutcome.failed] at ho

/-- A throwing attempt on the final attempt: the breaker opens with reset
time `exhaustTime + circuitBreakerTimeout` and the fallback is returned. -/
theorem retryLoop_failed_last {α : Type} (fallback : List α) (exhaustTime : Nat)
    (o : AttemptOutcome α) (rest : List (AttemptOutcome α)) (st : BreakerState)
    (ho : o.failed = true) :
    retryLoop fallback exhaustTime maxRetries (o :: rest) st =
      ⟨fallback, ⟨true, exhaustTime + circuitBreakerTimeout⟩,
        [.externalCall, .setBreakerOpen (exhaustTime + circuitBreakerTimeout)]⟩ := by
  cases o with
  | transportError => simp [retryLoop]
  | malformed => simp [retryLoop]
  | decodedNonArray => simp [AttemptOutcome.failed] at ho
  | decodedArr items => simp [AttemptOutcome.failed] at ho

/-- Whenever at least one attempt outcome is supplied, the first observable
effect of the retry loop is the outbound call of that attempt. -/
theorem retryLoop_head_event {α : Type} (fallback : List α) (exhaustTime attempt : Nat)
    (o : AttemptOutcome α) (rest : List (AttemptOutcome α)) (st : BreakerState) :
    (retryLoop fallback exhaustTime attempt (o :: rest) st).events.head? =
      some .externalCall := by
  cases o with
  | transportError =>
    by_cases ha : attempt = maxRetries
    · subst ha; simp [retryLoop]
    · simp [retryLoop, ha]
  | malformed =>
    by_cases ha : attempt = maxRetries
    · subst ha; simp [retryLoop]
    · simp [retryLoop, ha]
  | decodedNonArray => simp [retryLoop]
  | decodedArr items => simp [retryLoop]

/-- Running a block of `k` consecutive throwing attempts, none of them
final, prepends `failEvents` to whatever the loop does afterwards. -/
theorem retryLoop_failed_block {α : Type} (fallback : List α) (exhaustTime : Nat) :
    ∀ (fs : List (AttemptOutcome α)) (attempt : Nat)
      (rest : List (AttemptOutcome α)) (st : BreakerState),
      (∀ o ∈ fs, o.failed = true) → attempt + fs.length ≤ maxRetries →
      retryLoop fallback exhaustTime attempt (fs ++ rest) st =
        (let r := retryLoop fallback exhaustTime (attempt + fs.length) rest st
         ⟨r.value, r.state, failEvents attempt fs.length ++ r.events⟩) := by
  intro fs
  induction fs with
  | nil => intro attempt rest st _ _; simp [failEvents]
  | cons f fs2 ih =>
    intro attempt rest st hall hlen
    have hf : f.failed = true := hall f (List.mem_cons_self f fs2)
    have ha : attempt ≠ maxRetries := by
      simp only [List.length_cons] at hlen
      omega
    rw [List.cons_append,
      retryLoop_failed_step fallback exhaustTime attempt f (fs2 ++ rest) st hf ha]
    have hrec := ih (attempt + 1) rest st (fun o ho => hall o (List.mem_cons_of_mem f ho))
      (by simp only [List.length_cons] at hlen; omega)
    have hn : attempt + (fs2.length + 1) = attempt + 1 + fs2.length := by omega
    simp only [hrec, List.length_cons, failEvents, hn, List.cons_append]

/-- `failEvents` contains no breaker-close transition. -/
theorem failEvents_no_close : ∀ a k : Nat, Event.setBreakerClosed ∉ failEvents a k := by
  intro a k
  induction k generalizing a with
  | zero => simp [failEvents]
  | succ k2 ih => simp [failEvents, ih]

/-- `failEvents` contains no breaker-open transition. -/
theorem failEvents_no_open : ∀ (a k t : Nat), Event.setBreakerOpen t ∉ failEvents a k := by
  intro a k
  induction k generalizing a with
  | zero => simp [failEvents]
  | succ k2 ih => intro t; simp [failEvents, ih]

/-- `failEvents a k` makes exactly `k` outbound calls. -/
theorem failEvents_count_calls : ∀ a k : Nat,
    (failEvents a k).count Event.externalCall = k := by
  intro a k
  induction k generalizing a with
  | zero => simp [failEvents]
  | succ k2 ih => simp [failEvents, List.count_cons, ih]

/-- The waits of `failEvents a k` are exactly `retryDelay * a`,
`retryDelay * (a+1)`, …, `retryDelay * (a+k-1)`, in order. -/
theorem failEvents_waits : ∀ a k : Nat,
    (failEvents a k).filter isWaitEv =
      (List.range k).map fun j => Event.wait (retryDelay * (a + j)) := by
  intro a k
  induction k generalizing a with
  | zero => simp [failEvents]
  | succ k2 ih =>
    simp only [failEvents, List.filter_cons, isWaitEv, List.range_succ_eq_map,
      List.map_cons, List.map_map, ih, Nat.add_zero]
    refine congrArg (List.cons _) (List.map_congr_left ?_)
    intro j hj
    simp only [Function.comp_apply]
    have hj2 : a + 1 + j = a + j.succ := by omega
    rw [hj2]

/-- `bumpCount` never returns an empty association list. -/
theorem bumpCount_ne_nil (s : String) (l : List (String × Nat)) : bumpCount s l ≠ [] := by
  cases l with
  | nil => simp [bumpCount]
  | cons kv rest =>
    obtain ⟨k, n⟩ := kv
    by_cases h : k = s <;> simp [bumpCount, h]

/-- Folding `bumpCount` preserves non-emptiness of the accumulator. -/
theorem foldl_bump_ne_nil :
    ∀ (ps : List RedditPost) (acc : List (String × Nat)), acc ≠ [] →
      ps.foldl (fun acc p => bumpCount p.subreddit acc) acc ≠ [] := by
  intro ps
  induction ps with
  | nil => intro acc h; simpa using h
  | cons p ps2 ih =>
    intro acc _
    exact ih (bumpCount p.subreddit acc) (bumpCount_ne_nil _ _)

/-- A non-empty window produces a non-empty subreddit count table. -/
theorem countBySubreddit_ne_nil {posts : List RedditPost} (h : posts ≠ []) :
    countBySubreddit posts ≠ [] := by
  cases posts with
  | nil => exact absurd rfl h
  | cons p ps =>
    exact foldl_bump_ne_nil ps (bumpCount p.subreddit []) (bumpCount_ne_nil _ _)

/-- Stable descending insertion grows the length by one. -/
theorem length_insertCountDesc (x : String × Nat) :
    ∀ l : List (String × Nat), (insertCountDesc x l).length = l.length + 1 := by
  intro l
  induction l with
  | nil => simp [insertCountDesc]
  | cons y ys ih =>
    by_cases h : y.2 ≤ x.2 <;> simp [insertCountDesc, h, ih]

/-- The stable descending sort preserves length. -/
theorem length_sortCountDesc :
    ∀ l : List (String × Nat), (sortCountDesc l).length = l.length := by
  intro l
  induction l with
  | nil => simp [sortCountDesc]
  | cons x xs ih => simp [sortCountDesc, length_insertCountDesc, ih]

/-- A non-empty window yields a non-empty ranked subreddit list. -/
theorem sortCountDesc_ne_nil {posts : List RedditPost} (h : posts ≠ []) :
    sortCountDesc (countBySubreddit posts) ≠ [] := by
  intro hnil
  have hlen := congrArg List.length hnil
  rw [length_sortCountDesc] at hlen
  simp only [List.length_nil] at hlen
  exact countBySubreddit_ne_nil h (List.length_eq_zero.mp hlen)

/-- The concrete window of the C7 scenario: three records, two in
`saas`, one in `startups`, every score 150. -/
def scenarioTrendPosts : List RedditPost :=
  [{ title := "post a", subreddit := "saas", score := 150, num_comments := 10,
     created_utc := 0, selftext := none },
   { title := "post b", subreddit := "saas", score := 150, num_comments := 10,
     created_utc := 0, selftext := none },
   { title := "post c", subreddit := "startups", score := 150, num_comments := 10,
     created_utc := 0, selftext := none }]

/-- C7: on every non-empty record list the fallback trend analyzer emits
first the top-subreddit insight — growth `round(topCount/total*100)`,
confidence 60, competition "Medium", entry cost "Low", period "30 days" —
and, exactly when the mean score exceeds 100, a second high-engagement
insight — growth `round(mean/100*10)`, confidence 70 — in that order; on
the 3-record scenario (2 × saas, 1 × startups, mean score 150) it emits
exactly the growth values 67 and 15 with confidences 60 and 70. -/
theorem claim_c7 :
    (∀ posts : List RedditPost, posts ≠ [] → sortCountDesc (countBySubreddit posts) ≠ []) ∧
    (∀ (posts : List RedditPost) (g : String × Nat) (gs : List (String × Nat)),
      sortCountDesc (countBySubreddit posts) = g :: gs →
      getFallbackTrendAnalysis posts =
        { trend := "Growing activity in " ++ g.1 ++ " community"
          growthPercentage := (jsRound ((g.2 : ℚ) / (posts.length : ℚ) * 100) : ℚ)
          timePeriod := "30 days"
          marketAnalysis := "High engagement community with "
            ++ intToString (jsRound (avgScoreOf posts)) ++ " avg score and "
            ++ intToString (jsRound (avgCommentsOf posts)) ++ " avg comments"
          competitionLevel := "Medium"
          entryCost := "Low"
          recommendation := "Consider building tools for " ++ g.1 ++ " community needs"
          confidence := 60 } ::
        (if 100 < avgScoreOf posts then
          [{ trend := "High-engagement content trend"
             growthPercentage := (jsRound (avgScoreOf posts / 100 * 10) : ℚ)
             timePeriod := "30 days"
             marketAnalysis := "Content with high engagement indicates strong community interest"
             competitionLevel := "High"
             entryCost := "Medium"
             recommendation := "Focus on content creation and community management tools"
             confidence := 70 }]
         else [])) ∧
    (getFallbackTrendAnalysis scenarioTrendPosts).map (fun t => t.growthPercentage) = [67, 15] ∧
    (getFallbackTrendAnalysis scenarioTrendPosts).map (fun t => t.confidence) = [60, 70] := by
  refine ⟨fun posts h => sortCountDesc_ne_nil h, ?_, ?_, ?_⟩
  · intro posts g gs hgs
    by_cases havg : 100 < avgScoreOf posts
    · simp [getFallbackTrendAnalysis, hgs, havg]
    · simp [getFallbackTrendAnalysis, hgs, havg]
  · norm_num [getFallbackTrendAnalysis, scenarioTrendPosts, countBySubreddit, bumpCount,
      sortCountDesc, insertCountDesc, avgScoreOf, avgCommentsOf, jsRound]
  · norm_num [getFallbackTrendAnalysis, scenarioTrendPosts, countBySubreddit, bumpCount,
      sortCountDesc, insertCountDesc, avgScoreOf, avgCommentsOf, jsRound]

/-- The concrete window of the C8 scenario: 20 records of which exactly 15
contain a problem keyword (comment counts keep every record out of the
low-engagement bucket, which the claim does not exercise). -/
def scenarioProblemPosts : List RedditPost :=
  List.replicate 15
    { title := "cannot solve this problem", subreddit := "saas", score := 1,
      num_comments := 5, created_utc := 0, selftext := none } ++
  List.replicate 5
    { title := "all good today", subreddit := "saas", score := 1,
      num_comments := 5, created_utc := 0, selftext := none }

/-- C8: whenever at least one record matches a problem keyword
(case-insensitively, in title or body), the fallback problem analyzer emits
exactly one keyword-based insight, first, with `frequency` = number of
matching records, severity "High" iff frequency > 10 else "Medium", fixed
solutions, market size "Large", urgency "High" (followed only by the
independent low-engagement insight when its own condition holds); on the
scenario with 15 matches among 20 records it reports frequency 15 and
severity "High". -/
theorem claim_c8 :
    (∀ posts : List RedditPost, (∃ p ∈ posts, isProblemPost p = true) →
      getFallbackProblemAnalysis posts =
        { problem := "User-reported issues and difficulties"
          frequency := ((posts.filter isProblemPost).length : ℚ)
          severity := if 10 < (posts.filter isProblemPost).length then "High" else "Medium"
          potentialSolutions := ["User support tools", "Automated troubleshooting", "Community forums"]
          marketSize := "Large"
          urgency := "High" } ::
        (if (posts.length : ℚ) * (3 / 10) <
            ((posts.filter fun p => decide (p.score < 5) && decide (p.num_comments < 3)).length : ℚ)
         then
          [{ problem := "Low engagement content"
             frequency := ((posts.filter fun p =>
               decide (p.score < 5) && decide (p.num_comments < 3)).length : ℚ)
             severity := "Medium"
             potentialSolutions := ["Content optimization tools", "Engagement analytics", "A/B testing platforms"]
             marketSize := "Medium"
             urgency := "Medium" }]
         else [])) ∧
    (getFallbackProblemAnalysis scenarioProblemPosts).map (fun p => (p.frequency, p.severity)) =
      [((15 : ℚ), "High")] := by
  constructor
  · intro posts hex
    obtain ⟨p, hp, hf⟩ := hex
    have h0 : 0 < (posts.filter isProblemPost).length :=
      List.length_pos.mpr (List.ne_nil_of_mem (List.mem_filter.mpr ⟨hp, hf⟩))
    by_cases hl : (posts.length : ℚ) * (3 / 10) <
        ((posts.filter fun p => decide (p.score < 5) && decide (p.num_comments < 3)).length : ℚ)
    · simp [getFallbackProblemAnalysis, h0, hl]
    · simp [getFallbackProblemAnalysis, h0, hl]
  · have hfilter : scenarioProblemPosts.filter isProblemPost =
        List.replicate 15
          { title := "cannot solve this problem", subreddit := "saas", score := 1,
            num_comments := 5, created_utc := 0, selftext := none } := by decide
    have hlow : (scenarioProblemPosts.filter fun p =>
        decide (p.score < 5) && decide (p.num_comments < 3)) = [] := by decide
    have hlen : scenarioProblemPosts.length = 20 := by decide
    simp only [getFallbackProblemAnalysis, hfilter, hlow, hlen, List.length_replicate,
      List.length_nil, Nat.cast_ofNat, CharP.cast_eq_zero]
    norm_num

/-- A full run of three throwing attempts (the only way to exhaust the
3-attempt policy): two backoff waits of 2 s and 4 s, then the breaker
opens with reset time `exhaustTime + circuitBreakerTimeout` and the
fallback is returned. -/
theorem runGemini_three_failures {α : Type} (fallback : List α)
    (o1 o2 o3 : AttemptOutcome α) (checkTime exhaustTime : Nat) (st : BreakerState)
    (h1 : o1.failed = true) (h2 : o2.failed = true) (h3 : o3.failed = true)
    (hcb : ¬(st.circuitBreakerOpen = true ∧ checkTime < st.circuitBreakerResetTime)) :
    runGeminiAnalysis fallback [o1, o2, o3] checkTime exhaustTime st =
      ⟨fallback, ⟨true, exhaustTime + circuitBreakerTimeout⟩,
        [.externalCall, .wait 2000, .externalCall, .wait 4000,
         .externalCall, .setBreakerOpen (exhaustTime + circuitBreakerTimeout)]⟩ := by
  unfold runGeminiAnalysis
  rw [if_neg hcb]
  rw [retryLoop_failed_step fallback exhaustTime 1 o1 [o2, o3] st h1 (by decide)]
  simp only []
  rw [retryLoop_failed_step fallback exhaustTime (1 + 1) o2 [o3] st h2 (by decide)]
  simp only []
  have h33 : (1 + 1 + 1 : Nat) = maxRetries := rfl
  rw [h33, retryLoop_failed_last fallback exhaustTime o3 [] st h3]
  simp [retryDelay]

/-- A sample one-record window used for concrete runs of the analyzers. -/
def samplePost : RedditPost :=
  { title := "quiet morning", subreddit := "saas", score := 0, num_comments := 0,
    created_utc := 0, selftext := none }

/-- The fallback trend analyzer never returns an empty list on a non-empty
window (the top-subreddit insight always exists). -/
theorem getFallbackTrendAnalysis_ne_nil {posts : List RedditPost} (h : posts ≠ []) :
    getFallbackTrendAnalysis posts ≠ [] := by
  obtain ⟨g, gs, hgs⟩ := List.exists_cons_of_ne_nil (sortCountDesc_ne_nil h)
  by_cases havg : 100 < avgScoreOf posts <;>
    simp [getFallbackTrendAnalysis, hgs, havg]

/-- C1 is false on the code at a concrete input: when every attempt of a
run returns undecodable (malformed) text, the analysis does not return the
empty insight sequence (it returns the non-empty fallback result), and a
backoff wait occurs — the malformed response IS retried. -/
theorem claim_c1_counterexample :
    (analyzeWithGemini [samplePost] [.malformed, .malformed, .malformed] 0 0
      ⟨false, 0⟩).value ≠ [] ∧
    Event.wait 2000 ∈ (analyzeWithGemini [samplePost] [.malformed, .malformed, .malformed] 0 0
      ⟨false, 0⟩).events := by
  have h : analyzeWithGemini [samplePost] [.malformed, .malformed, .malformed] 0 0 ⟨false, 0⟩ =
      ⟨getFallbackTrendAnalysis [samplePost], ⟨true, 0 + circuitBreakerTimeout⟩,
        [.externalCall, .wait 2000, .externalCall, .wait 4000,
         .externalCall, .setBreakerOpen (0 + circuitBreakerTimeout)]⟩ :=
    runGemini_three_failures (getFallbackTrendAnalysis [samplePost])
      .malformed .malformed .malformed 0 0 ⟨false, 0⟩ rfl rfl rfl (by simp)
  rw [h]
  exact ⟨getFallbackTrendAnalysis_ne_nil (by simp), by simp⟩

/-- C1 (amended): a decodable non-sequence response yields the empty
insight sequence, closes the breaker and is not retried; an undecodable
(malformed) response raises inside the attempt and is treated as a failed
attempt — on a non-final attempt it is retried after the linear backoff
wait, and a run whose attempts all return malformed text ends in the
fallback result rather than the empty sequence. -/
theorem claim_c1 :
    (∀ (α : Type) (fallback : List α) (exhaustTime attempt : Nat)
       (rest : List (AttemptOutcome α)) (st : BreakerState),
      retryLoop fallback exhaustTime attempt (.decodedNonArray :: rest) st =
        ⟨[], { st with circuitBreakerOpen := false }, [Event.externalCall, Event.setBreakerClosed]⟩) ∧
    (∀ (α : Type) (fallback : List α) (exhaustTime attempt : Nat)
       (rest : List (AttemptOutcome α)) (st : BreakerState), attempt ≠ maxRetries →
      retryLoop fallback exhaustTime attempt (.malformed :: rest) st =
        (let r := retryLoop fallback exhaustTime (attempt + 1) rest st
         ⟨r.value, r.state, .externalCall :: .wait (retryDelay * attempt) :: r.events⟩)) ∧
    (∀ (posts : List RedditPost) (checkTime exhaustTime : Nat) (st : BreakerState),
      ¬(st.circuitBreakerOpen = true ∧ checkTime < st.circuitBreakerResetTime) →
      (analyzeWithGemini posts [.malformed, .malformed, .malformed]
          checkTime exhaustTime st).value = getFallbackTrendAnalysis posts) := by
  refine ⟨?_, ?_, ?_⟩
  · intro α fallback exhaustTime attempt rest st
    exact retryLoop_decodedNonArray fallback exhaustTime attempt rest st
  · intro α fallback exhaustTime attempt rest st ha
    exact retryLoop_failed_step fallback exhaustTime attempt .malformed rest st rfl ha
  · intro posts checkTime exhaustTime st hcb
    unfold analyzeWithGemini
    rw [runGemini_three_failures (getFallbackTrendAnalysis posts)
      .malformed .malformed .malformed checkTime exhaustTime st rfl rfl rfl hcb]

/-- Witness for C1 (amended) at concrete inputs. -/
theorem claim_c1_witness :
    ((1 : Nat) ≠ maxRetries ∧
      retryLoop ([] : List TrendAnalysisResult) 0 1 [.malformed] ⟨false, 0⟩ =
        ⟨[], ⟨false, 0⟩, [.externalCall, .wait 2000]⟩) ∧
    (¬((false : Bool) = true ∧ (0 : Nat) < 0) ∧
      (analyzeWithGemini [samplePost] [.malformed, .malformed, .malformed] 0 0
          ⟨false, 0⟩).value = getFallbackTrendAnalysis [samplePost]) :=
  ⟨⟨by decide, claim_c1.2.1 TrendAnalysisResult [] 0 1 [] ⟨false, 0⟩ (by decide)⟩,
   ⟨by simp, claim_c1.2.2 [samplePost] 0 0 ⟨false, 0⟩ (by simp)⟩⟩

/-- C2: exhausting all attempts opens the breaker with reset deadline
`now + 5 minutes`; afterwards every invocation whose check time is before
the deadline is refused (fallback returned, no call, state untouched);
an invocation at or after the deadline attempts the external call again
with no explicit reset (first event is the outbound call), the state
changing only with that attempt's outcome (shown for a success, which
closes the breaker). -/
theorem claim_c2 :
    (∀ (posts : List RedditPost) (fs : List (AttemptOutcome TrendAnalysisResult))
       (checkTime exhaustTime : Nat) (st : BreakerState),
      (∀ o ∈ fs, o.failed = true) → fs.length = 3 →
      ¬(st.circuitBreakerOpen = true ∧ checkTime < st.circuitBreakerResetTime) →
      (analyzeWithGemini posts fs checkTime exhaustTime st).state =
        ⟨true, exhaustTime + 5 * 60 * 1000⟩ ∧
      (analyzeWithGemini posts fs checkTime exhaustTime st).value =
        getFallbackTrendAnalysis posts) ∧
    (∀ (posts : List RedditPost) (outs : List (AttemptOutcome TrendAnalysisResult))
       (checkTime exhaustTime : Nat) (st : BreakerState),
      st.circuitBreakerOpen = true → checkTime < st.circuitBreakerResetTime →
      analyzeWithGemini posts outs checkTime exhaustTime st =
        ⟨getFallbackTrendAnalysis posts, st, []⟩) ∧
    (∀ (posts : List RedditPost) (o : AttemptOutcome TrendAnalysisResult)
       (outs : List (AttemptOutcome TrendAnalysisResult))
       (checkTime exhaustTime : Nat) (st : BreakerState),
      st.circuitBreakerOpen = true → st.circuitBreakerResetTime ≤ checkTime →
      (analyzeWithGemini posts (o :: outs) checkTime exhaustTime st).events.head? =
        some .externalCall ∧
      (∀ xs : List TrendAnalysisResult, o = .decodedArr xs →
        analyzeWithGemini posts (o :: outs) checkTime exhaustTime st =
          ⟨xs, { st with circuitBreakerOpen := false },
            [Event.externalCall, Event.setBreakerClosed]⟩)) := by
  refine ⟨?_, ?_, ?_⟩
  · intro posts fs checkTime exhaustTime st hall hlen hcb
    obtain ⟨o1, o2, o3, rfl⟩ := List.length_eq_three.mp hlen
    have h1 := hall o1 (by simp)
    have h2 := hall o2 (by simp)
    have h3 := hall o3 (by simp)
    unfold analyzeWithGemini
    rw [runGemini_three_failures (getFallbackTrendAnalysis posts)
      o1 o2 o3 checkTime exhaustTime st h1 h2 h3 hcb]
    exact ⟨rfl, rfl⟩
  · intro posts outs checkTime exhaustTime st hopen hlt
    unfold analyzeWithGemini runGeminiAnalysis
    rw [if_pos ⟨hopen, hlt⟩]
  · intro posts o outs checkTime exhaustTime st hopen hge
    have hcb : ¬(st.circuitBreakerOpen = true ∧ checkTime < st.circuitBreakerResetTime) := by
      rintro ⟨_, h2⟩
      omega
    constructor
    · unfold analyzeWithGemini runGeminiAnalysis
      rw [if_neg hcb]
      exact retryLoop_head_event (getFallbackTrendAnalysis posts) exhaustTime 1 o outs st
    · intro xs hxs
      subst hxs
      unfold analyzeWithGemini runGeminiAnalysis
      rw [if_neg hcb]
      exact retryLoop_decodedArr (getFallbackTrendAnalysis posts) exhaustTime 1 xs outs st

/-- Witness for C2 at concrete inputs: an exhausting run from a closed
breaker at exhaustion time 7; a refused run at check time 50 against reset
deadline 100; a half-open successful run at check time 100. -/
theorem claim_c2_witness :
    ((∀ o ∈ ([.transportError, .transportError, .transportError] :
        List (AttemptOutcome TrendAnalysisResult)), o.failed = true) ∧
      ¬((false : Bool) = true ∧ (0 : Nat) < 0) ∧
      (analyzeWithGemini [samplePost] [.transportError, .transportError, .transportError]
          0 7 ⟨false, 0⟩).state = ⟨true, 7 + 5 * 60 * 1000⟩ ∧
      (analyzeWithGemini [samplePost] [.transportError, .transportError, .transportError]
          0 7 ⟨false, 0⟩).value = getFallbackTrendAnalysis [samplePost]) ∧
    ((50 : Nat) < 100 ∧
      analyzeWithGemini [samplePost] [] 50 0 ⟨true, 100⟩ =
        ⟨getFallbackTrendAnalysis [samplePost], ⟨true, 100⟩, []⟩) ∧
    ((100 : Nat) ≤ 100 ∧
      analyzeWithGemini [samplePost] [.decodedArr []] 100 0 ⟨true, 100⟩ =
        ⟨[], ⟨false, 100⟩, [Event.externalCall, Event.setBreakerClosed]⟩) := by
  refine ⟨⟨by decide, by simp, ?_⟩, ⟨by decide, ?_⟩, ⟨by decide, ?_⟩⟩
  · exact claim_c2.1 [samplePost] [.transportError, .transportError, .transportError]
      0 7 ⟨false, 0⟩ (by decide) (by decide) (by simp)
  · exact claim_c2.2.1 [samplePost] [] 50 0 ⟨true, 100⟩ rfl (by decide)
  · exact (claim_c2.2.2 [samplePost] (.decodedArr []) [] 100 0 ⟨true, 100⟩ rfl
      (by decide)).2 [] rfl

/-- C6: when the external call succeeds on every attempt but each response
is undecodable (no transport failure anywhere), every such attempt counts
as a failed attempt: the run makes three calls with backoff waits of 2 s
and 4 s, then opens the breaker (reset deadline `exhaustTime + 5 min`) and
returns the fallback result — on the trend path and on the problem path. -/
theorem claim_c6 :
    ∀ (posts : List RedditPost) (checkTime exhaustTime : Nat) (st : BreakerState),
      ¬(st.circuitBreakerOpen = true ∧ checkTime < st.circuitBreakerResetTime) →
      analyzeWithGemini posts [.malformed, .malformed, .malformed] checkTime exhaustTime st =
        ⟨getFallbackTrendAnalysis posts, ⟨true, exhaustTime + 5 * 60 * 1000⟩,
         [.externalCall, .wait 2000, .externalCall, .wait 4000,
          .externalCall, .setBreakerOpen (exhaustTime + 5 * 60 * 1000)]⟩ ∧
      analyzeProblemsWithGemini posts [.malformed, .malformed, .malformed] checkTime exhaustTime st =
        ⟨getFallbackProblemAnalysis posts, ⟨true, exhaustTime + 5 * 60 * 1000⟩,
         [.externalCall, .wait 2000, .externalCall, .wait 4000,
          .externalCall, .setBreakerOpen (exhaustTime + 5 * 60 * 1000)]⟩ := by
  intro posts checkTime exhaustTime st hcb
  constructor
  · unfold analyzeWithGemini
    exact runGemini_three_failures (getFallbackTrendAnalysis posts)
      .malformed .malformed .malformed checkTime exhaustTime st rfl rfl rfl hcb
  · unfold analyzeProblemsWithGemini
    exact runGemini_three_failures (getFallbackProblemAnalysis posts)
      .malformed .malformed .malformed checkTime exhaustTime st rfl rfl rfl hcb

/-- Witness for C6 at a concrete input. -/
theorem claim_c6_witness :
    ¬((false : Bool) = true ∧ (3 : Nat) < 0) ∧
    (analyzeWithGemini [samplePost] [.malformed, .malformed, .malformed] 3 9 ⟨false, 0⟩ =
      ⟨getFallbackTrendAnalysis [samplePost], ⟨true, 9 + 5 * 60 * 1000⟩,
       [.externalCall, .wait 2000, .externalCall, .wait 4000,
        .externalCall, .setBreakerOpen (9 + 5 * 60 * 1000)]⟩ ∧
     analyzeProblemsWithGemini [samplePost] [.malformed, .malformed, .malformed] 3 9 ⟨false, 0⟩ =
      ⟨getFallbackProblemAnalysis [samplePost], ⟨true, 9 + 5 * 60 * 1000⟩,
       [.externalCall, .wait 2000, .externalCall, .wait 4000,
        .externalCall, .setBreakerOpen (9 + 5 * 60 * 1000)]⟩) :=
  ⟨by simp, claim_c6 [samplePost] 3 9 ⟨false, 0⟩ (by simp)⟩

/-- C3: both analysis paths share the single breaker instance of the
service: an exhaustion recorded on the problem path opens the breaker for
the trend path (whose next invocation inside the cooldown skips the call
and returns its own fallback) and symmetrically; a success on the trend
path closes the breaker so the problem path attempts the external call
again, and symmetrically. -/
theorem claim_c3 :
    (∀ (postsP postsT : List RedditPost) (fs : List (AttemptOutcome ProblemAnalysis))
       (outsT : List (AttemptOutcome TrendAnalysisResult))
       (ct et ct2 et2 : Nat) (st : BreakerState),
      (∀ o ∈ fs, o.failed = true) → fs.length = 3 →
      ¬(st.circuitBreakerOpen = true ∧ ct < st.circuitBreakerResetTime) →
      ct2 < et + 5 * 60 * 1000 →
      (analyzeProblemsWithGemini postsP fs ct et st).state = ⟨true, et + 5 * 60 * 1000⟩ ∧
      analyzeWithGemini postsT outsT ct2 et2 (analyzeProblemsWithGemini postsP fs ct et st).state =
        ⟨getFallbackTrendAnalysis postsT,
         (analyzeProblemsWithGemini postsP fs ct et st).state, []⟩) ∧
    (∀ (postsT postsP : List RedditPost) (fs : List (AttemptOutcome TrendAnalysisResult))
       (outsP : List (AttemptOutcome ProblemAnalysis))
       (ct et ct2 et2 : Nat) (st : BreakerState),
      (∀ o ∈ fs, o.failed = true) → fs.length = 3 →
      ¬(st.circuitBreakerOpen = true ∧ ct < st.circuitBreakerResetTime) →
      ct2 < et + 5 * 60 * 1000 →
      (analyzeWithGemini postsT fs ct et st).state = ⟨true, et + 5 * 60 * 1000⟩ ∧
      analyzeProblemsWithGemini postsP outsP ct2 et2 (analyzeWithGemini postsT fs ct et st).state =
        ⟨getFallbackProblemAnalysis postsP,
         (analyzeWithGemini postsT fs ct et st).state, []⟩) ∧
    (∀ (postsT postsP : List RedditPost) (xs : List TrendAnalysisResult)
       (restT : List (AttemptOutcome TrendAnalysisResult))
       (o2 : AttemptOutcome ProblemAnalysis) (outsP : List (AttemptOutcome ProblemAnalysis))
       (ct et ct2 et2 : Nat) (st : BreakerState),
      ¬(st.circuitBreakerOpen = true ∧ ct < st.circuitBreakerResetTime) →
      (analyzeWithGemini postsT (.decodedArr xs :: restT) ct et st).state.circuitBreakerOpen =
        false ∧
      (analyzeProblemsWithGemini postsP (o2 :: outsP) ct2 et2
        (analyzeWithGemini postsT (.decodedArr xs :: restT) ct et st).state).events.head? =
        some .externalCall) ∧
    (∀ (postsP postsT : List RedditPost) (xs : List ProblemAnalysis)
       (restP : List (AttemptOutcome ProblemAnalysis))
       (oT : AttemptOutcome TrendAnalysisResult) (outsT : List (AttemptOutcome TrendAnalysisResult))
       (ct et ct2 et2 : Nat) (st : BreakerState),
      ¬(st.circuitBreakerOpen = true ∧ ct < st.circuitBreakerResetTime) →
      (analyzeProblemsWithGemini postsP (.decodedArr xs :: restP) ct et st).state.circuitBreakerOpen =
        false ∧
      (analyzeWithGemini postsT (oT :: outsT) ct2 et2
        (analyzeProblemsWithGemini postsP (.decodedArr xs :: restP) ct et st).state).events.head? =
        some .externalCall) := by
  refine ⟨?_, ?_, ?_, ?_⟩
  · intro postsP postsT fs outsT ct et ct2 et2 st hall hlen hcb hct2
    obtain ⟨o1, o2, o3, rfl⟩ := List.length_eq_three.mp hlen
    have hrun : analyzeProblemsWithGemini postsP [o1, o2, o3] ct et st =
        ⟨getFallbackProblemAnalysis postsP, ⟨true, et + circuitBreakerTimeout⟩,
         [.externalCall, .wait 2000, .externalCall, .wait 4000,
          .externalCall, .setBreakerOpen (et + circuitBreakerTimeout)]⟩ :=
      runGemini_three_failures (getFallbackProblemAnalysis postsP) o1 o2 o3 ct et st
        (hall o1 (by simp)) (hall o2 (by simp)) (hall o3 (by simp)) hcb
    rw [hrun]
    refine ⟨rfl, ?_⟩
    unfold analyzeWithGemini runGeminiAnalysis
    rw [if_pos ⟨rfl, hct2⟩]
  · intro postsT postsP fs outsP ct et ct2 et2 st hall hlen hcb hct2
    obtain ⟨o1, o2, o3, rfl⟩ := List.length_eq_three.mp hlen
    have hrun : analyzeWithGemini postsT [o1, o2, o3] ct et st =
        ⟨getFallbackTrendAnalysis postsT, ⟨true, et + circuitBreakerTimeout⟩,
         [.externalCall, .wait 2000, .externalCall, .wait 4000,
          .externalCall, .setBreakerOpen (et + circuitBreakerTimeout)]⟩ :=
      runGemini_three_failures (getFallbackTrendAnalysis postsT) o1 o2 o3 ct et st
        (hall o1 (by simp)) (hall o2 (by simp)) (hall o3 (by simp)) hcb
    rw [hrun]
    refine ⟨rfl, ?_⟩
    unfold analyzeProblemsWithGemini runGeminiAnalysis
    rw [if_pos ⟨rfl, hct2⟩]
  · intro postsT postsP xs restT o2 outsP ct et ct2 et2 st hcb
    have hrun : analyzeWithGemini postsT (.decodedArr xs :: restT) ct et st =
        ⟨xs, { st with circuitBreakerOpen := false }, [Event.externalCall, Event.setBreakerClosed]⟩ := by
      unfold analyzeWithGemini runGeminiAnalysis
      rw [if_neg hcb]
      exact retryLoop_decodedArr (getFallbackTrendAnalysis postsT) et 1 xs restT st
    rw [hrun]
    refine ⟨rfl, ?_⟩
    unfold analyzeProblemsWithGemini runGeminiAnalysis
    rw [if_neg (by simp)]
    exact retryLoop_head_event (getFallbackProblemAnalysis postsP) et2 1 o2 outsP _
  · intro postsP postsT xs restP oT outsT ct et ct2 et2 st hcb
    have hrun : analyzeProblemsWithGemini postsP (.decodedArr xs :: restP) ct et st =
        ⟨xs, { st with circuitBreakerOpen := false }, [Event.externalCall, Event.setBreakerClosed]⟩ := by
      unfold analyzeProblemsWithGemini runGeminiAnalysis
      rw [if_neg hcb]
      exact retryLoop_decodedArr (getFallbackProblemAnalysis postsP) et 1 xs restP st
    rw [hrun]
    refine ⟨rfl, ?_⟩
    unfold analyzeWithGemini runGeminiAnalysis
    rw [if_neg (by simp)]
    exact retryLoop_head_event (getFallbackTrendAnalysis postsT) et2 1 oT outsT _

/-- Witness for C3 at concrete inputs: a problem-path exhaustion followed by
a refused trend-path invocation inside the cooldown, and a trend-path
success followed by an attempted problem-path call. -/
theorem claim_c3_witness :
    ((∀ o ∈ ([.transportError, .malformed, .transportError] :
        List (AttemptOutcome ProblemAnalysis)), o.failed = true) ∧
      ¬((false : Bool) = true ∧ (0 : Nat) < 0) ∧ (10 : Nat) < 0 + 5 * 60 * 1000 ∧
      (analyzeProblemsWithGemini [samplePost] [.transportError, .malformed, .transportError]
          0 0 ⟨false, 0⟩).state = ⟨true, 0 + 5 * 60 * 1000⟩ ∧
      analyzeWithGemini [samplePost] [] 10 0
          (analyzeProblemsWithGemini [samplePost] [.transportError, .malformed, .transportError]
            0 0 ⟨false, 0⟩).state =
        ⟨getFallbackTrendAnalysis [samplePost],
         (analyzeProblemsWithGemini [samplePost] [.transportError, .malformed, .transportError]
           0 0 ⟨false, 0⟩).state, []⟩) ∧
    (¬((true : Bool) = true ∧ (100 : Nat) < 100) ∧
      (analyzeWithGemini [samplePost] [.decodedArr []] 100 0 ⟨true, 100⟩).state.circuitBreakerOpen =
        false ∧
      (analyzeProblemsWithGemini [samplePost] [.transportError] 0 0
        (analyzeWithGemini [samplePost] [.decodedArr []] 100 0 ⟨true, 100⟩).state).events.head? =
        some .externalCall) := by
  refine ⟨⟨by decide, by simp, by norm_num, ?_⟩, ⟨by simp, ?_⟩⟩
  · exact claim_c3.1 [samplePost] [samplePost] [.transportError, .malformed, .transportError]
      [] 0 0 10 0 ⟨false, 0⟩ (by decide) (by decide) (by simp) (by norm_num)
  · exact claim_c3.2.2.1 [samplePost] [samplePost] [] [] .transportError [] 100 0 0 0
      ⟨true, 100⟩ (by simp)

/-- C4: an operation failing exactly `k < 3` times and then succeeding:
the executor waits `retryDelay * j` (2 s, then 4 s) after each failed
attempt `j`, returns the decoded result of the successful attempt
immediately, closes the breaker with exactly one success transition, makes
exactly `k + 1` calls, and never records an exhaustion. -/
theorem claim_c4 :
    ∀ (fallback : List TrendAnalysisResult) (exhaustTime : Nat) (st : BreakerState)
      (fs : List (AttemptOutcome TrendAnalysisResult)) (xs : List TrendAnalysisResult) (k : Nat),
      fs.length = k → k < maxRetries → (∀ o ∈ fs, o.failed = true) →
      retryLoop fallback exhaustTime 1 (fs ++ [.decodedArr xs]) st =
        ⟨xs, { st with circuitBreakerOpen := false },
          failEvents 1 k ++ [Event.externalCall, Event.setBreakerClosed]⟩ ∧
      (failEvents 1 k ++ [Event.externalCall, Event.setBreakerClosed]).count Event.setBreakerClosed = 1 ∧
      (∀ t, Event.setBreakerOpen t ∉ failEvents 1 k ++ [Event.externalCall, Event.setBreakerClosed]) ∧
      (failEvents 1 k ++ [Event.externalCall, Event.setBreakerClosed]).count Event.externalCall = k + 1 ∧
      (failEvents 1 k ++ [Event.externalCall, Event.setBreakerClosed]).filter isWaitEv =
        (List.range k).map fun j => Event.wait (retryDelay * (1 + j)) := by
  intro fallback exhaustTime st fs xs k hlen hk hall
  subst hlen
  refine ⟨?_, ?_, ?_, ?_, ?_⟩
  · rw [retryLoop_failed_block fallback exhaustTime fs 1 [.decodedArr xs] st hall
      (by simp only [maxRetries] at hk ⊢; omega)]
    simp only []
    rw [retryLoop_decodedArr fallback exhaustTime (1 + fs.length) xs [] st]
  · rw [List.count_append, List.count_eq_zero.mpr (failEvents_no_close 1 fs.length)]
    decide
  · intro t
    rw [List.mem_append]
    rintro (h | h)
    · exact failEvents_no_open 1 fs.length t h
    · simp at h
  · rw [List.count_append, failEvents_count_calls 1 fs.length]
    have : ([Event.externalCall, Event.setBreakerClosed].count Event.externalCall) = 1 := by decide
    rw [this]
  · rw [List.filter_append, failEvents_waits 1 fs.length]
    have : ([Event.externalCall, Event.setBreakerClosed].filter isWaitEv) = [] := by decide
    rw [this, List.append_nil]

/-- Witness for C4 with k = 2 concrete failures before the success. -/
theorem claim_c4_witness :
    (([.transportError, .transportError] :
        List (AttemptOutcome TrendAnalysisResult)).length = 2 ∧ (2 : Nat) < maxRetries ∧
      (∀ o ∈ ([.transportError, .transportError] :
        List (AttemptOutcome TrendAnalysisResult)), o.failed = true)) ∧
    (retryLoop ([] : List TrendAnalysisResult) 0 1
        ([.transportError, .transportError] ++ [.decodedArr []]) ⟨false, 0⟩ =
      ⟨[], ⟨false, 0⟩, failEvents 1 2 ++ [Event.externalCall, Event.setBreakerClosed]⟩ ∧
      (failEvents 1 2 ++ [Event.externalCall, Event.setBreakerClosed]).count Event.setBreakerClosed = 1 ∧
      (∀ t, Event.setBreakerOpen t ∉ failEvents 1 2 ++ [Event.externalCall, Event.setBreakerClosed]) ∧
      (failEvents 1 2 ++ [Event.externalCall, Event.setBreakerClosed]).count Event.externalCall = 2 + 1 ∧
      (failEvents 1 2 ++ [Event.externalCall, Event.setBreakerClosed]).filter isWaitEv =
        (List.range 2).map fun j => Event.wait (retryDelay * (1 + j))) :=
  ⟨⟨rfl, by decide, by decide⟩,
   claim_c4 [] 0 ⟨false, 0⟩ [.transportError, .transportError] [] 2 rfl (by decide) (by decide)⟩

/-- `analyzeTrends` never fails when the repository fetch succeeds: every
failure mode of the inference path ends in some returned insight list. -/
theorem analyzeTrends_ok (posts : List RedditPost) (cutoff : Int)
    (outs : List (AttemptOutcome TrendAnalysisResult)) (ct et : Nat) (st : BreakerState) :
    ∃ r, analyzeTrends (.ok posts) cutoff outs ct et st = .ok r := by
  unfold analyzeTrends getRecentPosts
  by_cases h : (posts.filter fun p => decide (cutoff ≤ p.created_utc)).length = 0 <;> simp [h]

/-- `analyzeProblems` never fails when the repository fetch succeeds. -/
theorem analyzeProblems_ok (posts : List RedditPost) (cutoff : Int)
    (outs : List (AttemptOutcome ProblemAnalysis)) (ct et : Nat) (st : BreakerState) :
    ∃ r, analyzeProblems (.ok posts) cutoff outs ct et st = .ok r := by
  unfold analyzeProblems getRecentPosts
  by_cases h : (posts.filter fun p => decide (cutoff ≤ p.created_utc)).length = 0 <;> simp [h]

/-- C5: whenever both repository fetches succeed (in particular, whenever a
non-empty record window exists), `generateReport` succeeds — whatever the
external analyzer does on every attempt of either path; the only errors
that ever reach the caller of `generateReport` are repository
(`ProviderFailure`) errors, rethrown unchanged; the configuration error is
raised at construction when the key is absent (or empty), and construction
succeeds otherwise. -/
theorem claim_c5 :
    (∀ (days : Nat) (posts postsP : List RedditPost) (cutoff : Int)
       (outsT : List (AttemptOutcome TrendAnalysisResult))
       (outsP : List (AttemptOutcome ProblemAnalysis)) (ctT etT ctP etP : Nat)
       (st : BreakerState),
      (posts.filter fun p => decide (cutoff ≤ p.created_utc)) ≠ [] →
      ∃ out, generateReport days (.ok posts) (.ok postsP) cutoff outsT outsP
        ctT etT ctP etP st = .ok out) ∧
    (∀ (days : Nat) (fetchedT fetchedP : Except String (List RedditPost)) (cutoff : Int)
       (outsT : List (AttemptOutcome TrendAnalysisResult))
       (outsP : List (AttemptOutcome ProblemAnalysis)) (ctT etT ctP etP : Nat)
       (st : BreakerState) (e : String),
      generateReport days fetchedT fetchedP cutoff outsT outsP ctT etT ctP etP st = .error e →
      fetchedT = .error e ∨ fetchedP = .error e) ∧
    serviceInit none = .error "GEMINI_KEY is not configured" ∧
    (∀ k : String, k ≠ "" → serviceInit (some k) = .ok ()) := by
  refine ⟨?_, ?_, rfl, ?_⟩
  · intro days posts postsP cutoff outsT outsP ctT etT ctP etP st _
    obtain ⟨rT, hT⟩ := analyzeTrends_ok posts cutoff outsT ctT etT st
    obtain ⟨rP, hP⟩ := analyzeProblems_ok postsP cutoff outsP ctP etP rT.state
    refine ⟨(generateReportText days rT.value rP.value, rP.state, rT.events ++ rP.events), ?_⟩
    unfold generateReport
    simp only [hT, hP]
  · intro days fetchedT fetchedP cutoff outsT outsP ctT etT ctP etP st e herr
    cases fetchedT with
    | error eT =>
      unfold generateReport analyzeTrends getRecentPosts at herr
      simp at herr
      exact Or.inl (by simp [herr])
    | ok posts =>
      obtain ⟨rT, hT⟩ := analyzeTrends_ok posts cutoff outsT ctT etT st
      unfold generateReport at herr
      simp only [hT] at herr
      cases fetchedP with
      | error eP =>
        unfold analyzeProblems getRecentPosts at herr
        simp at herr
        exact Or.inr (by simp [herr])
      | ok postsP =>
        obtain ⟨rP, hP⟩ := analyzeProblems_ok postsP cutoff outsP ctP etP rT.state
        simp only [hP] at herr
        exact absurd herr (by simp)
  · intro k hk
    simp [serviceInit, hk]

/-- Witness for C5 at concrete inputs: a successful run on a one-record
window, a run whose trend-path fetch fails with "db down", and a non-empty
configured key. -/
theorem claim_c5_witness :
    (([samplePost].filter fun p => decide ((0 : Int) ≤ p.created_utc)) ≠ [] ∧
      ∃ out, generateReport 30 (.ok [samplePost]) (.ok [samplePost]) 0
        [.malformed, .malformed, .malformed] [.decodedArr []] 0 0 0 0 ⟨false, 0⟩ = .ok out) ∧
    (generateReport 1 (.error "db down") (.ok []) 0 [] [] 0 0 0 0 ⟨false, 0⟩ =
        .error "db down" ∧
      ((.error "db down" : Except String (List RedditPost)) = .error "db down" ∨
       (.ok [] : Except String (List RedditPost)) = .error "db down")) ∧
    ("k" : String) ≠ "" ∧ serviceInit (some "k") = .ok () := by
  refine ⟨⟨by decide, ?_⟩, ⟨rfl, ?_⟩, by decide, ?_⟩
  · exact claim_c5.1 30 [samplePost] [samplePost] 0
      [.malformed, .malformed, .malformed] [.decodedArr []] 0 0 0 0 ⟨false, 0⟩ (by decide)
  · exact claim_c5.2.1 1 (.error "db down") (.ok []) 0 [] [] 0 0 0 0 ⟨false, 0⟩ "db down" rfl
  · exact claim_c5.2.2.2 "k" (by decide)

/-- C9: an empty record window short-circuits the whole pipeline: both
analyses return the empty insight list without touching the breaker, no
external call (indeed no observable effect) happens on either path, and
the report is the empty-collections report. -/
theorem claim_c9 :
    ∀ (days : Nat) (fetchedT fetchedP : Except String (List RedditPost)) (cutoff : Int)
      (outsT : List (AttemptOutcome TrendAnalysisResult))
      (outsP : List (AttemptOutcome ProblemAnalysis)) (ctT etT ctP etP : Nat)
      (st : BreakerState),
      getRecentPosts fetchedT cutoff = .ok [] → getRecentPosts fetchedP cutoff = .ok [] →
      analyzeTrends fetchedT cutoff outsT ctT etT st = .ok ⟨[], st, []⟩ ∧
      analyzeProblems fetchedP cutoff outsP ctP etP st = .ok ⟨[], st, []⟩ ∧
      generateReport days fetchedT fetchedP cutoff outsT outsP ctT etT ctP etP st =
        .ok (generateReportText days [] [], st, []) := by
  intro days fetchedT fetchedP cutoff outsT outsP ctT etT ctP etP st hT hP
  have h1 : analyzeTrends fetchedT cutoff outsT ctT etT st = .ok ⟨[], st, []⟩ := by
    unfold analyzeTrends
    rw [hT]
    rfl
  have h2 : analyzeProblems fetchedP cutoff outsP ctP etP st = .ok ⟨[], st, []⟩ := by
    unfold analyzeProblems
    rw [hP]
    rfl
  refine ⟨h1, h2, ?_⟩
  unfold generateReport
  simp only [h1, h2]
  rfl

/-- Witness for C9: a fetch that returns no records at all. -/
theorem claim_c9_witness :
    getRecentPosts (.ok []) 0 = .ok [] ∧
    (analyzeTrends (.ok []) 0 [.malformed] 1 2 ⟨false, 0⟩ = .ok ⟨[], ⟨false, 0⟩, []⟩ ∧
     analyzeProblems (.ok []) 0 [.transportError] 3 4 ⟨false, 0⟩ = .ok ⟨[], ⟨false, 0⟩, []⟩ ∧
     generateReport 30 (.ok []) (.ok []) 0 [.malformed] [.transportError] 1 2 3 4 ⟨false, 0⟩ =
       .ok (generateReportText 30 [] [], ⟨false, 0⟩, [])) :=
  ⟨rfl, claim_c9 30 (.ok []) (.ok []) 0 [.malformed] [.transportError] 1 2 3 4 ⟨false, 0⟩ rfl rfl⟩

/-- Appending the empty string is the identity. -/
theorem strAppend_empty (s : String) : s ++ "" = s := by
  cases s with
  | mk data => exact congrArg String.mk (List.append_nil data)

/-- The first character of a two-character run occurs in the list. -/
theorem containsRun_pair_mem {a b : Char} {l : List Char}
    (h : containsRun [a, b] l) : a ∈ l := by
  obtain ⟨s, t, hst⟩ := h
  subst hst
  simp

/-- C10 fails on the code at a concrete input: the empty-collections report
for the default 30-day window does not contain the lowercase literal
"no significant trends or problems" (the source sentence is capitalized:
"No significant trends or problems identified in the current data."). -/
theorem claim_c10_counterexample :
    ¬ strContains (generateReportText 30 [] []) "no significant trends or problems" := by
  intro h
  exact absurd ((hasPatRun_iff "no significant trends or problems".data
    (generateReportText 30 [] []).data).mpr h) (by decide)

/-- C10 (amended): for every window length, the empty-collections report is
exactly header, the capitalized sentence "No significant trends or problems
identified in the current data.", and footer; it contains that sentence
literally and contains no numbered list item (no occurrence of "1. ");
in general the trends block appears exactly when the trend collection is
non-empty, the problems block exactly when the problem collection is
non-empty, and the sentence exactly when both are empty. -/
theorem claim_c10 :
    (∀ days : Nat, generateReportText days [] [] =
      reportHeader days ++ nothingFoundSentence ++ reportFooter) ∧
    (∀ days : Nat, strContains (generateReportText days [] []) nothingFoundSentence) ∧
    (∀ days : Nat, ¬ strContains (generateReportText days [] []) "1. ") ∧
    (∀ (days : Nat) (trends : List TrendAnalysisResult) (problems : List ProblemAnalysis),
      generateReportText days trends problems =
        reportHeader days ++ (if 0 < trends.length then trendsBlock trends else "") ++
          (if 0 < problems.length then problemsBlock problems else "") ++
          (if trends.length = 0 ∧ problems.length = 0 then nothingFoundSentence else "") ++
          reportFooter) := by
  refine ⟨fun days => rfl, ?_, ?_, ?_⟩
  · intro days
    refine ⟨(reportHeader days).data, reportFooter.data, ?_⟩
    show (reportHeader days).data ++ nothingFoundSentence.data ++ reportFooter.data =
      (generateReportText days [] []).data
    simp [generateReportText, String.data_append]
  · intro days h
    have hp : containsRun ['.', ' '] (generateReportText days [] []).data := by
      obtain ⟨s, t, hst⟩ := h
      exact ⟨s ++ ['1'], t, by simpa [List.append_assoc] using hst⟩
    have hdata : (generateReportText days [] []).data =
        "\n=== TREND ANALYSIS REPORT (".data ++
          (natDigits days ++
            (" days) ===\n\n".data ++ (nothingFoundSentence.data ++ reportFooter.data))) := by
      simp [generateReportText, reportHeader, natToString, String.data_append, List.append_assoc]
    rw [hdata] at hp
    rcases pairRun_append _ _ hp with hc | hc | hc
    · exact absurd ((hasPatRun_iff _ _).mpr hc) (by decide)
    · rcases pairRun_append _ _ hc with hc2 | hc2 | hc2
      · exact absurd (containsRun_pair_mem hc2) (dot_not_mem_natDigits days)
      · exact absurd ((hasPatRun_iff _ _).mpr hc2) (by decide)
      · exact absurd hc2.1 (dot_not_mem_natDigits days)
    · exact absurd hc.1 (by decide)
  · intro days trends problems
    rcases Nat.eq_zero_or_pos trends.length with ht | ht <;>
      rcases Nat.eq_zero_or_pos problems.length with hp | hp
    · simp [generateReportText, ht, hp, strAppend_empty]
    · simp [generateReportText, ht, hp, Nat.pos_iff_ne_zero.mp hp, strAppend_empty]
    · simp [generateReportText, ht, hp, Nat.pos_iff_ne_zero.mp ht, strAppend_empty]
    · simp [generateReportText, ht, hp, Nat.pos_iff_ne_zero.mp ht,
        Nat.pos_iff_ne_zero.mp hp, strAppend_empty]

/-- Witness for C7 at the scenario window. -/
theorem claim_c7_witness :
    (scenarioTrendPosts ≠ [] ∧ sortCountDesc (countBySubreddit scenarioTrendPosts) ≠ []) ∧
    (sortCountDesc (countBySubreddit scenarioTrendPosts) = ("saas", 2) :: [("startups", 1)] ∧
      getFallbackTrendAnalysis scenarioTrendPosts =
        { trend := "Growing activity in " ++ ("saas", 2).1 ++ " community"
          growthPercentage :=
            (jsRound (((("saas", 2) : String × Nat).2 : ℚ) /
              (scenarioTrendPosts.length : ℚ) * 100) : ℚ)
          timePeriod := "30 days"
          marketAnalysis := "High engagement community with "
            ++ intToString (jsRound (avgScoreOf scenarioTrendPosts)) ++ " avg score and "
            ++ intToString (jsRound (avgCommentsOf scenarioTrendPosts)) ++ " avg comments"
          competitionLevel := "Medium"
          entryCost := "Low"
          recommendation := "Consider building tools for " ++ ("saas", 2).1 ++ " community needs"
          confidence := 60 } ::
        (if 100 < avgScoreOf scenarioTrendPosts then
          [{ trend := "High-engagement content trend"
             growthPercentage := (jsRound (avgScoreOf scenarioTrendPosts / 100 * 10) : ℚ)
             timePeriod := "30 days"
             marketAnalysis := "Content with high engagement indicates strong community interest"
             competitionLevel := "High"
             entryCost := "Medium"
             recommendation := "Focus on content creation and community management tools"
             confidence := 70 }]
         else [])) := by
  have hsort : sortCountDesc (countBySubreddit scenarioTrendPosts) =
      ("saas", 2) :: [("startups", 1)] := by decide
  exact ⟨⟨by decide, claim_c7.1 scenarioTrendPosts (by decide)⟩,
         ⟨hsort, claim_c7.2.1 scenarioTrendPosts ("saas", 2) [("startups", 1)] hsort⟩⟩

/-- Witness for C8 at the scenario window. -/
theorem claim_c8_witness :
    (∃ p ∈ scenarioProblemPosts, isProblemPost p = true) ∧
    getFallbackProblemAnalysis scenarioProblemPosts =
      { problem := "User-reported issues and difficulties"
        frequency := ((scenarioProblemPosts.filter isProblemPost).length : ℚ)
        severity :=
          if 10 < (scenarioProblemPosts.filter isProblemPost).length then "High" else "Medium"
        potentialSolutions := ["User support tools", "Automated troubleshooting", "Community forums"]
        marketSize := "Large"
        urgency := "High" } ::
      (if (scenarioProblemPosts.length : ℚ) * (3 / 10) <
          ((scenarioProblemPosts.filter fun p =>
            decide (p.score < 5) && decide (p.num_comments < 3)).length : ℚ)
       then
        [{ problem := "Low engagement content"
           frequency := ((scenarioProblemPosts.filter fun p =>
             decide (p.score < 5) && decide (p.num_comments < 3)).length : ℚ)
           severity := "Medium"
           potentialSolutions := ["Content optimization tools", "Engagement analytics", "A/B testing platforms"]
           marketSize := "Medium"
           urgency := "Medium" }]
       else []) :=
  ⟨by decide, claim_c8.1 scenarioProblemPosts (by decide)⟩
